import Mathlib

/-!
Verification of `src/dashboard.py` (asteroid dashboard).

The program has two stages:
* `fetch_asteroid_data(start_date, end_date)` — one HTTP GET, caught at the
  client boundary; the JSON body's `near_earth_objects` mapping is flattened
  into a row-per-asteroid table, dropping (via `except (KeyError, IndexError,
  ValueError): continue`) any entry with a missing field or a failed `float()`
  coercion.
* `run_dashboard()` — renders metrics, a name selector (first pandas row
  matching the selected name wins), detail fields, and a Scattergeo marker
  whose size is `np.log(diameter) * 10 if diameter > 0 else 0` at position
  `[20 + uniform(-5,5), 0 + uniform(-5,5)]`.

Modelling choices:
* JSON values are the inductive `Json`; numbers are rationals.  A `Json.num`
  stands for any value Python's `float()` coerces successfully (the feed
  serialises velocity/distance as numeric strings, which `float()` parses);
  `Json.str` stands for a value on which `float()` raises `ValueError`.
* Reals (`ℝ`) replace Python floats in the presentation-stage arithmetic.
* The network is an input: `HttpResponse.failure` is any transport or
  HTTP-status error (`requests.exceptions.RequestException`), and
  `HttpResponse.success` carries the parsed JSON body.
* Messages shown via `st.error` / `st.warning` are returned as values
  instead of being emitted as side effects.
* The randomness of `np.random.uniform(-5, 5)` is an input pair of offsets.
* Two models of the per-record normalization coexist.  The coarse one
  (`parseAsteroid`, over `Option`) treats every per-entry failure as caught
  and is used only where its hypotheses or inputs keep it on the domain
  where it agrees with the code.  The faithful one (`parseAsteroidE`, over
  `PyResult`) distinguishes the exception classes line 40 catches
  (`KeyError`, `IndexError`, `ValueError` — entry skipped) from the
  uncaught `TypeError` (e.g. `float(None)`), which escapes the loop and
  aborts the whole fetch.
-/

/-- A JSON value as delivered by the feed.  The constructor `num` carries a
rational and stands for any value `float()` coerces (numbers, and the feed's
numeric strings); `str` is a non-numeric string. -/
inductive Json where
  | null : Json
  | bool (b : Bool) : Json
  | num (q : ℚ) : Json
  | str (s : String) : Json
  | arr (items : List Json) : Json
  | obj (fields : List (String × Json)) : Json

mutual

/-- Structural equality of JSON values (Python `==` on parsed JSON data). -/
def Json.beq : Json → Json → Bool
  | .null, .null => true
  | .bool a, .bool b => a == b
  | .num a, .num b => a == b
  | .str a, .str b => a == b
  | .arr xs, .arr ys => Json.beqList xs ys
  | .obj fs, .obj gs => Json.beqFields fs gs
  | _, _ => false

/-- Elementwise equality of JSON arrays. -/
def Json.beqList : List Json → List Json → Bool
  | [], [] => true
  | x :: xs, y :: ys => Json.beq x y && Json.beqList xs ys
  | _, _ => false

/-- Elementwise equality of JSON object field lists. -/
def Json.beqFields : List (String × Json) → List (String × Json) → Bool
  | [], [] => true
  | (k, v) :: fs, (k2, v2) :: gs => k == k2 && Json.beq v v2 && Json.beqFields fs gs
  | _, _ => false

end

instance : BEq Json := ⟨Json.beq⟩

/-- Python `d[key]` on a JSON object, in the coarse two-way model: `none`
models the caught `KeyError`.  Coarseness: on a non-dict Python raises an
uncaught `TypeError` instead; `Json.getFieldE` below separates that case,
and the theorems built on this coarse accessor are confined by their
hypotheses or concrete inputs to the domain where the two agree. -/
def Json.getField : Json → String → Option Json
  | .obj fields, key => fields.lookup key
  | _, _ => none

/-- Python `l[i]` on a JSON array, in the coarse two-way model: `none`
models the caught `IndexError`.  Coarseness: on `None`, a number or a
boolean Python raises an uncaught `TypeError`, and a non-empty string even
yields its first character; `Json.getIdxE` below is the faithful version. -/
def Json.getIdx : Json → Nat → Option Json
  | .arr items, i => items.get? i
  | _, _ => none

/-- Fields of a JSON object (the iteration order of a Python dict), empty
for non-objects. -/
def Json.objFields : Json → List (String × Json)
  | .obj fields => fields
  | _ => []

/-- Items of a JSON array, empty for non-arrays. -/
def Json.arrItems : Json → List Json
  | .arr items => items
  | _ => []

/-- Python `float(x)`, in the coarse two-way model: succeeds exactly on the
values modelled by `Json.num`; `none` models the caught `ValueError` on a
non-numeric string.  Coarseness: Python's `float` also succeeds on booleans
(`float(True) = 1.0`) and raises an uncaught `TypeError` on `None`, lists
and dicts; `pyFloatE` below is the faithful version. -/
def pyFloat : Json → Option ℚ
  | .num q => some q
  | _ => none

/-- One row of the normalized table built in `fetch_asteroid_data`
(dashboard.py lines 32-39).  Fields `speed_kmh` and `distance_km` are the
only coerced ones; `name`, `diameter_m`, `orbiting_body` and `hazardous`
hold the raw feed values. -/
structure AsteroidRecord where
  name : Json
  diameter_m : Json
  speed_kmh : ℚ
  distance_km : ℚ
  orbiting_body : Json
  hazardous : Json

/-- Body of the per-asteroid `try` block (dashboard.py lines 31-41), in the
coarse two-way model: each field access can fail (`KeyError` /
`IndexError`), the two `float()` calls can fail (`ValueError`), and any
failure drops the entry (`none`), otherwise the row is built.  Coarseness:
this treats every failure as caught, whereas line 40 catches only
`(KeyError, IndexError, ValueError)` and a `TypeError` aborts the whole
batch; `parseAsteroidE` below separates the two, and the theorems that use
this coarse parse are confined to entries on which the two agree. -/
def parseAsteroid (asteroid : Json) : Option AsteroidRecord :=
  Option.bind (asteroid.getField "name") fun name =>
  Option.bind (asteroid.getField "estimated_diameter") fun ed =>
  Option.bind (ed.getField "meters") fun meters =>
  Option.bind (meters.getField "estimated_diameter_max") fun diameter_m =>
  Option.bind (asteroid.getField "close_approach_data") fun cad =>
  Option.bind (cad.getIdx 0) fun cad0 =>
  Option.bind (cad0.getField "relative_velocity") fun rv =>
  Option.bind (rv.getField "kilometers_per_hour") fun speedRaw =>
  Option.bind (pyFloat speedRaw) fun speed_kmh =>
  Option.bind (cad0.getField "miss_distance") fun md =>
  Option.bind (md.getField "kilometers") fun distRaw =>
  Option.bind (pyFloat distRaw) fun distance_km =>
  Option.bind (cad0.getField "orbiting_body") fun orbiting_body =>
  Option.bind (asteroid.getField "is_potentially_hazardous_asteroid") fun hazardous =>
  some { name := name, diameter_m := diameter_m, speed_kmh := speed_kmh,
         distance_km := distance_km, orbiting_body := orbiting_body,
         hazardous := hazardous }

/-- All per-asteroid entries of the feed body, in iteration order across the
dates of `data.get('near_earth_objects', {})` (dashboard.py lines 29-30). -/
def feedEntries (data : Json) : List Json :=
  (((data.getField "near_earth_objects").getD (Json.obj [])).objFields).flatMap
    (fun dateEntry => dateEntry.2.arrItems)

/-- Normalization loop of `fetch_asteroid_data` (dashboard.py lines 28-43):
for each date, for each asteroid, append the parsed row, skipping entries
whose parse fails. -/
def fetch_normalize (data : Json) : List AsteroidRecord :=
  (((data.getField "near_earth_objects").getD (Json.obj [])).objFields).flatMap
    (fun dateEntry => dateEntry.2.arrItems.filterMap parseAsteroid)

/-- Outcome of the network request in `fetch_asteroid_data`: `success` is a
2xx response with the parsed JSON body; `failure` is any
`requests.exceptions.RequestException` (a transport error or, via
`raise_for_status`, a non-2xx status), carrying the exception text. -/
inductive HttpResponse where
  | success (body : Json) : HttpResponse
  | failure (errMsg : String) : HttpResponse

/-- Model of `fetch_asteroid_data` (dashboard.py lines 14-43), given the
network outcome: on failure the `except` handler shows `st.error(...)`
(returned here as the second component) and returns an empty table; on
success the normalized table is returned with no warning.  The function is
total: no exception escapes the client boundary. -/
def fetch_asteroid_data (resp : HttpResponse) : List AsteroidRecord × Option String :=
  match resp with
  | .failure e => ([], some ("Error fetching data from NASA API: " ++ e))
  | .success data => (fetch_normalize data, none)

/-- Claim-side predicate "this feed entry has all required fields, with
numeric velocity and distance": each of the six required (possibly nested)
fields is present, `close_approach_data` has a first element, and the
velocity and miss-distance values pass `float()` coercion. -/
def hasAllRequiredFields (a : Json) : Bool :=
  (a.getField "name").isSome &&
  (Option.bind (Option.bind (a.getField "estimated_diameter")
    (fun ed => ed.getField "meters"))
    (fun m => m.getField "estimated_diameter_max")).isSome &&
  (Option.bind (Option.bind (Option.bind (Option.bind
    (a.getField "close_approach_data") (fun c => c.getIdx 0))
    (fun c0 => c0.getField "relative_velocity"))
    (fun rv => rv.getField "kilometers_per_hour")) pyFloat).isSome &&
  (Option.bind (Option.bind (Option.bind (Option.bind
    (a.getField "close_approach_data") (fun c => c.getIdx 0))
    (fun c0 => c0.getField "miss_distance"))
    (fun md => md.getField "kilometers")) pyFloat).isSome &&
  (Option.bind (Option.bind (a.getField "close_approach_data")
    (fun c => c.getIdx 0)) (fun c0 => c0.getField "orbiting_body")).isSome &&
  (a.getField "is_potentially_hazardous_asteroid").isSome

/-- Modelled from the spec: the `@st.cache_data` decorator on
`fetch_asteroid_data` (dashboard.py line 13) is third-party library code not
present in this repository.  Per the spec it is "a memoization layer keyed by
exact argument values, with no explicit expiry beyond process lifetime".
The cache is a lookup list from `(start_date, end_date)` to the stored
result; `net` gives the network outcome a fresh request would see; the
`Bool` component records whether a network request was issued. -/
def fetch_asteroid_data_cached
    (net : String → String → HttpResponse)
    (cache : List ((String × String) × (List AsteroidRecord × Option String)))
    (start_date end_date : String) :
    (List AsteroidRecord × Option String) ×
      List ((String × String) × (List AsteroidRecord × Option String)) × Bool :=
  match cache.lookup (start_date, end_date) with
  | some cached => (cached, cache, false)
  | none =>
      let result := fetch_asteroid_data (net start_date end_date)
      (result, ((start_date, end_date), result) :: cache, true)

/-- Marker radius of the impact simulation (dashboard.py line 87):
`np.log(diameter) * 10 if diameter > 0 else 0`. -/
noncomputable def impact_radius (diameter : ℝ) : ℝ :=
  if diameter > 0 then Real.log diameter * 10 else 0

/-- The one plotted `go.Scattergeo` marker (dashboard.py lines 88-102):
position is the jittered base coordinate, the marker size is the impact
radius, and the text label carries the diameter, the speed and the impact
radius (the `:.2f` decimal formatting of the label is not modelled; the
field holds the labelled value). -/
structure ScatterGeo where
  lon : ℝ
  lat : ℝ
  markerSize : ℝ
  textDiameter : ℝ
  textSpeed : ℝ
  textRadius : ℝ

/-- Construction of the marker from the selected record's diameter and
speed and the two `np.random.uniform(-5, 5)` draws (dashboard.py lines
87-102): `impact_location = [20 + uniform(-5, 5), 0 + uniform(-5, 5)]`,
`lat = impact_location[0]`, `lon = impact_location[1]`. -/
noncomputable def make_trace (diameter speed dlat dlon : ℝ) : ScatterGeo :=
  { lon := 0 + dlon
    lat := 20 + dlat
    markerSize := impact_radius diameter
    textDiameter := diameter
    textSpeed := speed
    textRadius := impact_radius diameter }

/-- Detail fields written for the selected asteroid (dashboard.py lines
76-80). -/
structure AsteroidDetails where
  diameter_m : Json
  speed_kmh : ℚ
  distance_km : ℚ
  orbiting_body : Json
  hazardous : Json

/-- Projection of a table row to its displayed detail fields. -/
def detailsOf (r : AsteroidRecord) : AsteroidDetails :=
  { diameter_m := r.diameter_m
    speed_kmh := r.speed_kmh
    distance_km := r.distance_km
    orbiting_body := r.orbiting_body
    hazardous := r.hazardous }

/-- Pandas row filter `asteroid_df[asteroid_df['name'] == selected_asteroid]`
(dashboard.py line 72): the rows whose name equals the selected one, in
table order.  Each detail field is then read with `.values[0]`, i.e. from
the first row of this filtered frame. -/
def selected_rows (records : List AsteroidRecord) (nm : Json) : List AsteroidRecord :=
  records.filter (fun r => r.name == nm)

/-- Pandas `asteroid_df['name'].unique()` (dashboard.py line 71): the
distinct names in first-occurrence order; these are the selectbox options. -/
def pandas_unique (l : List Json) : List Json :=
  l.foldl (fun acc x => if acc.contains x then acc else acc ++ [x]) []

/-- What one render pass of `run_dashboard` (dashboard.py lines 45-126) puts
on the page after the title.  Each section is `none` when it is not
rendered.  `metrics` holds the "Total Asteroids" count shown in the metric
tiles (the two mean tiles render together with it; their string formatting
is not modelled).  `selection` holds the selectbox options, `details` the
detail fields of the first matching row, and `impact` the plotted marker. -/
structure RenderModel where
  warning : Option String
  metrics : Option ℕ
  selection : Option (List Json)
  details : Option AsteroidDetails
  impact : Option ScatterGeo

/-- Render pass of `run_dashboard` given the fetched table, the selectbox
choice and the two uniform jitter draws: on an empty table the warning is
shown and the function returns before any later section (dashboard.py lines
57-59); otherwise metrics, selection, details and the impact plot are
rendered.  The details and the marker come from the first row matching the
choice; the marker needs the diameter as a number (on a non-numeric
diameter value line 87 would raise an uncaught `TypeError`, which no claim
exercises; it is modelled as an absent plot). -/
noncomputable def run_dashboard_view (records : List AsteroidRecord)
    (choice : Json) (dlat dlon : ℝ) : RenderModel :=
  if records.isEmpty then
    { warning := some "No asteroid data available. Check your API key or internet connection."
      metrics := none
      selection := none
      details := none
      impact := none }
  else
    { warning := none
      metrics := some records.length
      selection := some (pandas_unique (records.map (fun r => r.name)))
      details := (selected_rows records choice).head?.map detailsOf
      impact := (selected_rows records choice).head?.bind (fun r =>
        match r.diameter_m with
        | Json.num q => some (make_trace (q : ℝ) (r.speed_kmh : ℝ) dlat dlon)
        | _ => none) }

/-- Helper assembling a feed entry from raw field values, in the nesting the
feed uses (section 6 of the spec). -/
def mkEntry (name diam speed dist orb haz : Json) : Json :=
  Json.obj
    [("name", name),
     ("estimated_diameter",
        Json.obj [("meters", Json.obj [("estimated_diameter_max", diam)])]),
     ("close_approach_data", Json.arr
        [Json.obj
          [("relative_velocity", Json.obj [("kilometers_per_hour", speed)]),
           ("miss_distance", Json.obj [("kilometers", dist)]),
           ("orbiting_body", orb)]]),
     ("is_potentially_hazardous_asteroid", haz)]

/-- A wellformed sample feed entry. -/
def sampleEntryA : Json :=
  mkEntry (Json.str "433 Eros") (Json.num 168) (Json.num 20000)
    (Json.num 54000000) (Json.str "Earth") (Json.bool false)

/-- A second wellformed sample feed entry. -/
def sampleEntryB : Json :=
  mkEntry (Json.str "99942 Apophis") (Json.num 370) (Json.num 30000)
    (Json.num 38000000) (Json.str "Earth") (Json.bool true)

/-- A malformed sample entry: an empty object, every required field
missing. -/
def sampleBadEntry : Json := Json.obj []

/-- A sample feed body spanning two dates with one entry each. -/
def sampleFeed : Json :=
  Json.obj [("near_earth_objects", Json.obj
    [("2026-10-12", Json.arr [sampleEntryA]),
     ("2026-10-13", Json.arr [sampleEntryB])])]

/-- A sample table row. -/
def sampleRec1 : AsteroidRecord :=
  { name := Json.str "Duplicate", diameter_m := Json.num 12, speed_kmh := 30000,
    distance_km := 500000, orbiting_body := Json.str "Earth",
    hazardous := Json.bool true }

/-- A sample table row with a distinct name. -/
def sampleRec2 : AsteroidRecord :=
  { name := Json.str "Other", diameter_m := Json.num 5, speed_kmh := 1000,
    distance_km := 700, orbiting_body := Json.str "Earth",
    hazardous := Json.bool false }

/-- A sample table row sharing the name of `sampleRec1` but with different
field values. -/
def sampleRec3 : AsteroidRecord :=
  { name := Json.str "Duplicate", diameter_m := Json.num 99, speed_kmh := 1,
    distance_km := 2, orbiting_body := Json.str "Earth",
    hazardous := Json.bool false }

/-- Result of one Python evaluation step inside the `try` block of
dashboard.py lines 31-41: a value, an exception the `except` clause of line
40 catches (`KeyError`, `IndexError` or `ValueError` — the entry is
skipped), or an exception it does not catch (`TypeError` — it escapes the
loop and aborts `fetch_asteroid_data` as a whole). -/
inductive PyResult (α : Type) where
  | val (a : α) : PyResult α
  | caught : PyResult α
  | uncaught : PyResult α

/-- Sequencing of Python evaluation: the first raised exception
propagates. -/
def PyResult.bind {α β : Type} : PyResult α → (α → PyResult β) → PyResult β
  | .val a, f => f a
  | .caught, _ => .caught
  | .uncaught, _ => .uncaught

/-- Python `x[key]` with a string key, faithfully: a dict yields the value
or raises the caught `KeyError`; a list, string, number, boolean or `None`
raises the uncaught `TypeError`. -/
def Json.getFieldE : Json → String → PyResult Json
  | .obj fields, key =>
      match fields.lookup key with
      | some v => .val v
      | none => .caught
  | _, _ => .uncaught

/-- Python `x[i]` with an integer index, faithfully: a list yields the
element or raises the caught `IndexError`; a dict raises the caught
`KeyError` (JSON-parsed dicts have only string keys, so an integer key is
always absent); a string yields its i-th character as a one-character
string or raises the caught `IndexError`; `None`, a number or a boolean
raises the uncaught `TypeError`. -/
def Json.getIdxE : Json → Nat → PyResult Json
  | .arr items, i =>
      match items.get? i with
      | some v => .val v
      | none => .caught
  | .obj _, _ => .caught
  | .str s, i =>
      match s.data.get? i with
      | some c => .val (.str (String.mk [c]))
      | none => .caught
  | _, _ => .uncaught

/-- Python `float(x)`, faithfully: numbers (and the numeric strings the
feed serialises, modelled by `Json.num`) succeed; booleans succeed
(`float(True) = 1.0`); a non-numeric string raises the caught `ValueError`;
`None`, a list or a dict raises the uncaught `TypeError`. -/
def pyFloatE : Json → PyResult ℚ
  | .num q => .val q
  | .bool b => .val (if b then 1 else 0)
  | .str _ => .caught
  | .null => .uncaught
  | .arr _ => .uncaught
  | .obj _ => .uncaught

/-- Body of the per-asteroid `try` block (dashboard.py lines 31-41),
faithfully: the accesses and coercions run in the evaluation order of the
dict literal, and the first raised exception wins.  (`close_approach_data[0]`
is hoisted; the code re-evaluates it per field, but the accessors are pure,
so the first exception is unchanged.) -/
def parseAsteroidE (asteroid : Json) : PyResult AsteroidRecord :=
  PyResult.bind (asteroid.getFieldE "name") fun name =>
  PyResult.bind (asteroid.getFieldE "estimated_diameter") fun ed =>
  PyResult.bind (ed.getFieldE "meters") fun meters =>
  PyResult.bind (meters.getFieldE "estimated_diameter_max") fun diameter_m =>
  PyResult.bind (asteroid.getFieldE "close_approach_data") fun cad =>
  PyResult.bind (cad.getIdxE 0) fun cad0 =>
  PyResult.bind (cad0.getFieldE "relative_velocity") fun rv =>
  PyResult.bind (rv.getFieldE "kilometers_per_hour") fun speedRaw =>
  PyResult.bind (pyFloatE speedRaw) fun speed_kmh =>
  PyResult.bind (cad0.getFieldE "miss_distance") fun md =>
  PyResult.bind (md.getFieldE "kilometers") fun distRaw =>
  PyResult.bind (pyFloatE distRaw) fun distance_km =>
  PyResult.bind (cad0.getFieldE "orbiting_body") fun orbiting_body =>
  PyResult.bind (asteroid.getFieldE "is_potentially_hazardous_asteroid") fun hazardous =>
  PyResult.val { name := name, diameter_m := diameter_m, speed_kmh := speed_kmh,
                 distance_km := distance_km, orbiting_body := orbiting_body,
                 hazardous := hazardous }

/-- Normalization loop of dashboard.py lines 28-43, faithfully: a caught
per-entry exception skips that entry and the loop continues; an uncaught
`TypeError` escapes the loop, so `fetch_asteroid_data` never returns a
table (modelled as `none`). -/
def normalizeEntriesE : List Json → Option (List AsteroidRecord)
  | [] => some []
  | a :: rest =>
      match parseAsteroidE a with
      | .val r => (normalizeEntriesE rest).map (fun rs => r :: rs)
      | .caught => normalizeEntriesE rest
      | .uncaught => none

/-- Faithful counterpart of `fetch_normalize`: the loop over all entries of
the feed body, `none` when an uncaught `TypeError` aborts it. -/
def fetch_normalizeE (data : Json) : Option (List AsteroidRecord) :=
  normalizeEntriesE (feedEntries data)

/-- A sample entry whose velocity is `null`: `float(None)` raises the
uncaught `TypeError`. -/
def nullVelocityEntry : Json :=
  mkEntry (Json.str "Null Velocity") (Json.num 50) Json.null (Json.num 1000)
    (Json.str "Earth") (Json.bool false)

/-- A sample entry whose velocity is `true`: `float(True)` succeeds with
1.0, so the program retains the entry. -/
def boolVelocityEntry : Json :=
  mkEntry (Json.str "Bool Velocity") (Json.num 5) (Json.bool true) (Json.num 77)
    (Json.str "Earth") (Json.bool false)

/-- A sample feed whose middle entry has a `null` velocity. -/
def sampleCrashFeed : Json :=
  Json.obj [("near_earth_objects", Json.obj
    [("2026-10-12", Json.arr [sampleEntryA, nullVelocityEntry, sampleEntryB])])]

/-- A feed entry parses successfully exactly when it has all required
fields with coercible velocity and distance. -/
theorem parse_isSome_iff (a : Json) :
    (parseAsteroid a).isSome = hasAllRequiredFields a := by
  simp only [parseAsteroid, hasAllRequiredFields]
  cases hn : a.getField "name"
  · rfl
  simp only [Option.bind]
  cases hed : a.getField "estimated_diameter"
  · rfl
  rename_i ed
  simp only [Option.bind]
  cases hm : ed.getField "meters"
  · rfl
  rename_i mtr
  simp only [Option.bind]
  cases hdm : mtr.getField "estimated_diameter_max"
  · rfl
  simp only [Option.bind]
  cases hcad : a.getField "close_approach_data"
  · rfl
  rename_i cad
  simp only [Option.bind]
  cases hc0 : cad.getIdx 0
  · rfl
  rename_i c0
  simp only [Option.bind]
  cases hrv : c0.getField "relative_velocity"
  · rfl
  rename_i rv
  simp only [Option.bind]
  cases hkmh : rv.getField "kilometers_per_hour"
  · rfl
  rename_i kmh
  simp only [Option.bind]
  cases hsp : pyFloat kmh
  · rfl
  simp only [Option.bind]
  cases hmd : c0.getField "miss_distance"
  · rfl
  rename_i md
  simp only [Option.bind]
  cases hkm : md.getField "kilometers"
  · rfl
  rename_i km
  simp only [Option.bind]
  cases hds : pyFloat km
  · rfl
  simp only [Option.bind]
  cases hob : c0.getField "orbiting_body"
  · rfl
  simp only [Option.bind]
  cases hhz : a.getField "is_potentially_hazardous_asteroid"
  · rfl
  rfl

/-- The normalization loop equals `filterMap` over the flattened entry
list. -/
theorem fetch_normalize_eq_filterMap (data : Json) :
    fetch_normalize data = (feedEntries data).filterMap parseAsteroid := by
  unfold fetch_normalize feedEntries
  exact (List.filterMap_flatMap _ _ _).symm

/-- `filterMap` loses nothing on a list whose elements all map to `some`. -/
theorem length_filterMap_of_isSome {α β : Type} (f : α → Option β)
    (l : List α) (h : ∀ a ∈ l, (f a).isSome = true) :
    (l.filterMap f).length = l.length := by
  rw [List.length_filterMap_eq_countP]
  exact List.countP_eq_length.mpr h

/-- The head of a filtered list is the first element satisfying the
predicate. -/
theorem head_filter_eq_get {α : Type} (p : α → Bool) (l : List α) :
    ∀ (i : Fin l.length), p (l.get i) = true →
      (∀ j (hj : j < i.1), p (l.get ⟨j, Nat.lt_trans hj i.2⟩) = false) →
      (l.filter p).head? = some (l.get i) := by
  induction l with
  | nil => exact fun i => absurd i.2 (Nat.not_lt_zero _)
  | cons x xs ih =>
    intro i hp hf
    match i with
    | ⟨0, h0⟩ =>
      simp only [List.get] at hp
      simp [List.filter_cons, hp]
    | ⟨j + 1, hj⟩ =>
      have hx : p x = false := hf 0 (Nat.succ_pos j)
      have hrec : (xs.filter p).head? = some (xs.get ⟨j, Nat.lt_of_succ_lt_succ hj⟩) :=
        ih ⟨j, Nat.lt_of_succ_lt_succ hj⟩ hp
          (fun k hk => hf (k + 1) (Nat.succ_lt_succ hk))
      simp [List.filter_cons, hx, hrec]

/-- On a non-empty table the render pass reaches the detail section, which
shows the first row matching the choice. -/
theorem run_dashboard_view_details_cons (x : AsteroidRecord)
    (xs : List AsteroidRecord) (choice : Json) (dlat dlon : ℝ) :
    (run_dashboard_view (x :: xs) choice dlat dlon).details =
      (selected_rows (x :: xs) choice).head?.map detailsOf := rfl

/-- C1: when the network request fails with a transport or HTTP-status
error, the feed client returns an empty record collection together with the
user-visible warning text, and — being a total function — propagates no
exception past the client boundary. -/
theorem C1_fetch_failure_yields_empty_and_warning (e : String) :
    fetch_asteroid_data (HttpResponse.failure e) =
      ([], some ("Error fetching data from NASA API: " ++ e)) := rfl

/-- C2 counterexample: the claim as stated fails on the code.  In the feed
`sampleCrashFeed` the middle entry's velocity is `null`, a failed numeric
coercion, so per the claim that entry alone would be dropped and the other
two entries retained; in the program `float(None)` raises `TypeError`,
which line 40 does not catch, so the whole batch aborts: the faithful
normalization returns no table at all, and in particular not the two
surviving rows the claim requires. -/
theorem C2_null_velocity_aborts_batch :
    fetch_normalizeE sampleCrashFeed = none ∧
    fetch_normalizeE sampleCrashFeed ≠
      some [{ name := Json.str "433 Eros", diameter_m := Json.num 168,
              speed_kmh := 20000, distance_km := 54000000,
              orbiting_body := Json.str "Earth", hazardous := Json.bool false },
            { name := Json.str "99942 Apophis", diameter_m := Json.num 370,
              speed_kmh := 30000, distance_km := 38000000,
              orbiting_body := Json.str "Earth", hazardous := Json.bool true }] :=
  ⟨rfl, fun h => Option.noConfusion h⟩

/-- C2 (amended): an entry whose malformation raises an exception the
per-record handler catches (`KeyError`, `IndexError`, `ValueError` — a
missing key, an empty `close_approach_data`, a non-numeric velocity or
distance string) is dropped silently and removes only itself, the batch
continuing with the remaining entries; an entry that evaluates to a row is
retained unchanged, in order; but an entry whose evaluation raises the
uncaught `TypeError` (e.g. a `null` velocity) aborts the whole batch. -/
theorem C2_caught_dropped_uncaught_aborts :
    (∀ data : Json, fetch_normalizeE data = normalizeEntriesE (feedEntries data)) ∧
    (∀ (pre post : List Json) (bad : Json), parseAsteroidE bad = PyResult.caught →
      normalizeEntriesE (pre ++ bad :: post) = normalizeEntriesE (pre ++ post)) ∧
    (∀ (a : Json) (r : AsteroidRecord) (rest : List Json),
      parseAsteroidE a = PyResult.val r →
      normalizeEntriesE (a :: rest) =
        (normalizeEntriesE rest).map (fun rs => r :: rs)) ∧
    (∀ (pre post : List Json) (bad : Json), parseAsteroidE bad = PyResult.uncaught →
      normalizeEntriesE (pre ++ bad :: post) = none) := by
  refine ⟨fun data => rfl, fun pre post bad h => ?_, fun a r rest h => ?_,
    fun pre post bad h => ?_⟩
  · induction pre with
    | nil => simp [normalizeEntriesE, h]
    | cons x xs ih =>
        simp only [List.cons_append, normalizeEntriesE, List.append_eq]
        rw [ih]
  · simp [normalizeEntriesE, h]
  · induction pre with
    | nil => simp [normalizeEntriesE, h]
    | cons x xs ih =>
        simp only [List.cons_append, normalizeEntriesE, List.append_eq]
        rw [ih]
        cases parseAsteroidE x <;> simp

/-- Witness for the amended C2 at concrete entries: the empty object
(missing fields, caught `KeyError`) is dropped with the batch surviving;
a boolean velocity parses to a row with speed 1 (Python `float(True)`) and
is retained; a `null` velocity (uncaught `TypeError`) aborts the whole
batch. -/
theorem C2_caught_dropped_uncaught_aborts_witness :
    normalizeEntriesE ([sampleEntryA] ++ sampleBadEntry :: [sampleEntryB]) =
      normalizeEntriesE ([sampleEntryA] ++ [sampleEntryB]) ∧
    normalizeEntriesE (boolVelocityEntry :: [sampleEntryA]) =
      (normalizeEntriesE [sampleEntryA]).map
        (fun rs =>
          { name := Json.str "Bool Velocity", diameter_m := Json.num 5,
            speed_kmh := 1, distance_km := 77,
            orbiting_body := Json.str "Earth",
            hazardous := Json.bool false } :: rs) ∧
    normalizeEntriesE ([sampleEntryA] ++ nullVelocityEntry :: [sampleEntryB]) =
      none :=
  ⟨C2_caught_dropped_uncaught_aborts.2.1 [sampleEntryA] [sampleEntryB]
     sampleBadEntry rfl,
   C2_caught_dropped_uncaught_aborts.2.2.1 boolVelocityEntry
     { name := Json.str "Bool Velocity", diameter_m := Json.num 5,
       speed_kmh := 1, distance_km := 77, orbiting_body := Json.str "Earth",
       hazardous := Json.bool false } [sampleEntryA] rfl,
   C2_caught_dropped_uncaught_aborts.2.2.2 [sampleEntryA] [sampleEntryB]
     nullVelocityEntry rfl⟩

/-- C3: when every entry across all dates of the `near_earth_objects`
mapping has all required fields with numeric velocity and distance, the
normalized collection length equals the total number of input entries. -/
theorem C3_wellformed_feed_preserves_count (data : Json)
    (h : (feedEntries data).all hasAllRequiredFields = true) :
    (fetch_normalize data).length = (feedEntries data).length := by
  rw [fetch_normalize_eq_filterMap]
  refine length_filterMap_of_isSome parseAsteroid (feedEntries data) ?_
  intro a ha
  rw [parse_isSome_iff]
  exact List.all_eq_true.mp h a ha

/-- Witness for C3: a concrete two-date feed with one wellformed entry per
date. -/
theorem C3_wellformed_feed_preserves_count_witness :
    (fetch_normalize sampleFeed).length = (feedEntries sampleFeed).length :=
  C3_wellformed_feed_preserves_count sampleFeed (by decide)

/-- C4: the marker radius is `ln(diameter) * 10` for positive diameters and
`0` for non-positive ones; in particular diameter 1 gives radius 0,
diameter e gives radius 10, and diameter 0 takes the guarded branch and
gives 0 with no logarithm of zero. -/
theorem C4_impact_radius_formula :
    (∀ d : ℝ, 0 < d → impact_radius d = Real.log d * 10) ∧
    (∀ d : ℝ, d ≤ 0 → impact_radius d = 0) ∧
    impact_radius 1 = 0 ∧
    impact_radius (Real.exp 1) = 10 ∧
    impact_radius 0 = 0 := by
  refine ⟨fun d hd => if_pos hd, fun d hd => if_neg (not_lt.mpr hd), ?_, ?_, ?_⟩
  · simp only [impact_radius]
    rw [if_pos one_pos, Real.log_one, zero_mul]
  · simp only [impact_radius]
    rw [if_pos (Real.exp_pos 1), Real.log_exp, one_mul]
  · simp only [impact_radius]
    rw [if_neg (lt_irrefl 0)]

/-- Witness for C4 at concrete diameters 2 and -3. -/
theorem C4_impact_radius_formula_witness :
    impact_radius 2 = Real.log 2 * 10 ∧ impact_radius (-3) = 0 :=
  ⟨C4_impact_radius_formula.1 2 (by norm_num),
   C4_impact_radius_formula.2.1 (-3) (by norm_num)⟩

/-- C5: in a non-empty collection in which the selected name occurs more
than once, the detail view shows the field values of the first occurrence
of that name in collection order. -/
theorem C5_duplicate_name_first_occurrence_wins (records : List AsteroidRecord)
    (nm : Json) (dlat dlon : ℝ) (i : Fin records.length)
    (hdup : 2 ≤ records.countP (fun r => r.name == nm))
    (hmatch : ((records.get i).name == nm) = true)
    (hfirst : ∀ j (hj : j < i.1),
      ((records.get ⟨j, Nat.lt_trans hj i.2⟩).name == nm) = false) :
    (run_dashboard_view records nm dlat dlon).details =
      some (detailsOf (records.get i)) := by
  have hsel : (selected_rows records nm).head? = some (records.get i) :=
    head_filter_eq_get (fun (r : AsteroidRecord) => r.name == nm) records i
      hmatch hfirst
  cases records with
  | nil => exact absurd i.2 (Nat.not_lt_zero _)
  | cons x xs =>
      rw [run_dashboard_view_details_cons, hsel]
      rfl

/-- Witness for C5: a three-row table whose first and third rows share a
name; the details shown are those of the first row. -/
theorem C5_duplicate_name_first_occurrence_wins_witness :
    (run_dashboard_view [sampleRec1, sampleRec2, sampleRec3]
        (Json.str "Duplicate") 0 0).details = some (detailsOf sampleRec1) :=
  C5_duplicate_name_first_occurrence_wins [sampleRec1, sampleRec2, sampleRec3]
    (Json.str "Duplicate") 0 0 ⟨0, by decide⟩ (by decide) (by decide)
    (fun j hj => absurd hj (Nat.not_lt_zero j))

/-- C6: on an empty fetched collection the render pass shows the blocking
warning and halts: metric tiles, selection control, detail fields and the
impact visualization are all unrendered, whatever the choice and the jitter
draws. -/
theorem C6_empty_collection_warns_and_halts (choice : Json) (dlat dlon : ℝ) :
    run_dashboard_view [] choice dlat dlon =
      { warning := some "No asteroid data available. Check your API key or internet connection.",
        metrics := none, selection := none, details := none, impact := none } := rfl

/-- C7: of two calls with identical `(start_date, end_date)` arguments in
one session, the second returns the same data as the first and issues no
network request. -/
theorem C7_identical_args_memoized (net : String → String → HttpResponse)
    (cache : List ((String × String) × (List AsteroidRecord × Option String)))
    (s e : String) :
    (fetch_asteroid_data_cached net
        (fetch_asteroid_data_cached net cache s e).2.1 s e).1 =
      (fetch_asteroid_data_cached net cache s e).1 ∧
    (fetch_asteroid_data_cached net
        (fetch_asteroid_data_cached net cache s e).2.1 s e).2.2 = false := by
  unfold fetch_asteroid_data_cached
  cases h : cache.lookup (s, e) with
  | some r => simp [h]
  | none => simp [h, List.lookup]

/-- C8: the plotted coordinate is the fixed base (latitude 20, longitude 0)
plus the drawn offsets; for any offsets within [-5, 5] the plotted latitude
lies in [15, 25] and the plotted longitude in [-5, 5]. -/
theorem C8_impact_location_base_plus_offset (diameter speed dlat dlon : ℝ)
    (h1 : -5 ≤ dlat) (h2 : dlat ≤ 5) (h3 : -5 ≤ dlon) (h4 : dlon ≤ 5) :
    (make_trace diameter speed dlat dlon).lat = 20 + dlat ∧
    (make_trace diameter speed dlat dlon).lon = 0 + dlon ∧
    15 ≤ (make_trace diameter speed dlat dlon).lat ∧
    (make_trace diameter speed dlat dlon).lat ≤ 25 ∧
    -5 ≤ (make_trace diameter speed dlat dlon).lon ∧
    (make_trace diameter speed dlat dlon).lon ≤ 5 := by
  refine ⟨rfl, rfl, ?_, ?_, ?_, ?_⟩ <;> simp only [make_trace] <;> linarith

/-- Witness for C8 at a concrete draw (3, -2). -/
theorem C8_impact_location_base_plus_offset_witness :
    (make_trace 1 2 3 (-2)).lat = 20 + 3 ∧
    (make_trace 1 2 3 (-2)).lon = 0 + (-2) ∧
    15 ≤ (make_trace 1 2 3 (-2)).lat ∧
    (make_trace 1 2 3 (-2)).lat ≤ 25 ∧
    -5 ≤ (make_trace 1 2 3 (-2)).lon ∧
    (make_trace 1 2 3 (-2)).lon ≤ 5 :=
  C8_impact_location_base_plus_offset 1 2 3 (-2)
    (by norm_num) (by norm_num) (by norm_num) (by norm_num)

/-- C9: only the velocity and miss-distance values go through the fallible
`float()` coercion; the name, diameter, orbiting-body and hazardous values
are stored exactly as they appear in the entry, so a present but
non-numeric diameter value (a string) is retained in the normalized row,
while a non-numeric velocity drops the entry. -/
theorem C9_only_speed_and_distance_coerced (nm diamJ orb haz : Json)
    (v d : ℚ) (s : String) :
    parseAsteroid (mkEntry nm diamJ (Json.num v) (Json.num d) orb haz) =
      some { name := nm, diameter_m := diamJ, speed_kmh := v, distance_km := d,
             orbiting_body := orb, hazardous := haz } ∧
    parseAsteroid (mkEntry nm (Json.str s) (Json.num v) (Json.num d) orb haz) =
      some { name := nm, diameter_m := Json.str s, speed_kmh := v,
             distance_km := d, orbiting_body := orb, hazardous := haz } ∧
    parseAsteroid (mkEntry nm diamJ (Json.str s) (Json.num d) orb haz) = none :=
  ⟨rfl, rfl, rfl⟩

/-- C10: for a positive sub-metre diameter the impact radius is strictly
negative, and that value is passed unchanged as the plot marker size and as
the radius carried by the marker label — no clamp to zero. -/
theorem C10_subunit_diameter_negative_radius (d speed dlat dlon : ℝ)
    (h0 : 0 < d) (h1 : d < 1) :
    impact_radius d < 0 ∧
    (make_trace d speed dlat dlon).markerSize = impact_radius d ∧
    (make_trace d speed dlat dlon).textRadius = impact_radius d := by
  refine ⟨?_, rfl, rfl⟩
  rw [show impact_radius d = Real.log d * 10 from if_pos h0]
  have hlog := Real.log_neg h0 h1
  linarith

/-- Witness for C10 at diameter 1/2. -/
theorem C10_subunit_diameter_negative_radius_witness :
    impact_radius (1 / 2) < 0 ∧
    (make_trace (1 / 2) 7 0 0).markerSize = impact_radius (1 / 2) ∧
    (make_trace (1 / 2) 7 0 0).textRadius = impact_radius (1 / 2) :=
  C10_subunit_diameter_negative_radius (1 / 2) 7 0 0 (by norm_num) (by norm_num)
